import Mathlib

/-!
Shallow embedding of the DogMailCreator repository's core logic:
the phone-verification provider client (`phone_verification.py`) and the
signup orchestrator (`account_creator.py`).  Network requests are modelled
as oracles `Nat → Option String`: `some data` is the text of a successful
HTTP response, `none` is a raised `requests.RequestException`.  Page state
(element presence, click success) is modelled by boolean oracles.
-/

set_option maxRecDepth 4000

/-- Python's `a in b` substring test on a prefix of a character list. -/
def charListIsPrefix : List Char → List Char → Bool
  | [], _ => true
  | _ :: _, [] => false
  | a :: as, b :: bs => a == b && charListIsPrefix as bs

/-- Substring containment on character lists. -/
def charListContains (needle : List Char) : List Char → Bool
  | [] => needle.isEmpty
  | c :: rest => charListIsPrefix needle (c :: rest) || charListContains needle rest

/-- Python's `needle in hay` substring containment on strings. -/
def pyContains (needle hay : String) : Bool :=
  charListContains needle.toList hay.toList

/-- Splitting a character list on `':'`, accumulating the current segment. -/
def splitColonAux : List Char → List Char → List String
  | [], acc => [String.mk acc.reverse]
  | c :: rest, acc =>
    if c = ':' then String.mk acc.reverse :: splitColonAux rest []
    else splitColonAux rest (c :: acc)

/-- Python's `data.split(':')`. -/
def pySplit (s : String) : List String := splitColonAux s.toList []

/-- Python truthiness of `self.current_activation_id` (`None` and `""` are falsy). -/
def isTruthy : Option String → Bool
  | none => false
  | some s => s ≠ ""

/-- The mutable fields of `PhoneVerificationManager` (phone_verification.py):
`current_activation_id` and `current_number`. -/
structure PVState where
  current_activation_id : Option String
  current_number : Option String
deriving Repr, DecidableEq

/-- Result of one run of `get_phone_number`: number of provider calls made,
the trace of `time.sleep` durations, the returned `(successful, value)` pair
and the manager state afterwards. -/
structure GetNumberRun where
  calls : Nat
  sleeps : List Nat
  ok : Bool
  value : Option String
  state : PVState
deriving Repr, DecidableEq

/-- The `while attempt < max_attempts` loop of `get_phone_number`
(phone_verification.py lines 54-94).  `remaining` is `max_attempts - attempt`;
`callIdx` indexes the provider-response oracle.  A `none` response models a
`requests.RequestException`, which the source catches and retries after
`time.sleep(3)`. -/
def get_phone_number_loop (responses : Nat → Option String) (st : PVState)
    (callIdx : Nat) (sleeps : List Nat) : Nat → GetNumberRun
  | 0 => ⟨callIdx, sleeps, false, none, st⟩
  | remaining + 1 =>
    match responses callIdx with
    | none => get_phone_number_loop responses st (callIdx + 1) (sleeps ++ [3]) remaining
    | some data =>
      if pyContains "ACCESS_NUMBER" data then
        match pySplit data with
        | _ :: actId :: num :: _ =>
          ⟨callIdx + 1, sleeps, true, some ("+" ++ num), ⟨some actId, some num⟩⟩
        | _ => get_phone_number_loop responses st (callIdx + 1) (sleeps ++ [3]) remaining
      else if pyContains "NO_NUMBERS" data then
        get_phone_number_loop responses st (callIdx + 1) (sleeps ++ [2, 3]) remaining
      else if pyContains "NO_BALANCE" data then
        ⟨callIdx + 1, sleeps, false, some "Insufficient balance in SMS-Activate account", st⟩
      else if pyContains "BAD_KEY" data then
        ⟨callIdx + 1, sleeps, false, some "Invalid API key", st⟩
      else
        get_phone_number_loop responses st (callIdx + 1) (sleeps ++ [3]) remaining

/-- `get_phone_number(max_attempts)` of phone_verification.py. -/
def get_phone_number (responses : Nat → Option String) (maxAttempts : Nat)
    (st : PVState) : GetNumberRun :=
  get_phone_number_loop responses st 0 [] maxAttempts

/-- Outcome of `get_verification_code`: a normal `return successful, value`,
or an uncaught `UnboundLocalError` (reading `data` at line 153 after a request
failure on the very first poll). -/
inductive GVCResult where
  | ret (ok : Bool) (value : Option String)
  | crash
deriving Repr, DecidableEq

/-- The polling loop of `get_verification_code` (phone_verification.py lines
122-159).  `lastData` is the value the Python local `data` retains from the
most recent successful fetch: the wait-check at line 153 reads it even when the
current request raised, and raises `UnboundLocalError` when it was never
assigned.  The loop need not terminate (`STATUS_WAIT_CODE` decrements the
attempt counter), so it is run on explicit fuel; `none` means the fuel ran out
with the loop still going.  On `some (r, n)`, `n` is the number of provider
calls made. -/
def get_verification_code_loop (responses : Nat → Option String) (maxAttempts : Nat) :
    Nat → Nat → Option String → Nat → Option (GVCResult × Nat)
  | _, _, _, 0 => none
  | attempt, callIdx, lastData, fuel + 1 =>
    if attempt < maxAttempts then
      match responses callIdx with
      | some data =>
        if pyContains "STATUS_OK" data then
          match pySplit data with
          | _ :: code :: _ => some (.ret true (some code), callIdx + 1)
          | _ =>
            let a := if pyContains "STATUS_WAIT_CODE" data then attempt else attempt + 1
            get_verification_code_loop responses maxAttempts a (callIdx + 1) (some data) fuel
        else if pyContains "STATUS_WAIT_CODE" data then
          get_verification_code_loop responses maxAttempts attempt (callIdx + 1) (some data) fuel
        else if pyContains "STATUS_CANCEL" data then
          some (.ret false (some "Activation cancelled"), callIdx + 1)
        else
          let a := if pyContains "STATUS_WAIT_CODE" data then attempt else attempt + 1
          get_verification_code_loop responses maxAttempts a (callIdx + 1) (some data) fuel
      | none =>
        match lastData with
        | none => some (.crash, callIdx + 1)
        | some stale =>
          let a := if pyContains "STATUS_WAIT_CODE" stale then attempt else attempt + 1
          get_verification_code_loop responses maxAttempts a (callIdx + 1) (some stale) fuel
    else
      some (.ret false none, callIdx)

/-- `get_verification_code(max_attempts, polling_interval)` of
phone_verification.py: short-circuits when no activation id is active. -/
def get_verification_code (st : PVState) (responses : Nat → Option String)
    (maxAttempts fuel : Nat) : Option (GVCResult × Nat) :=
  if isTruthy st.current_activation_id then
    get_verification_code_loop responses maxAttempts 0 0 none fuel
  else
    some (.ret false (some "No active phone number"), 0)

/-- Whether a `setStatus(status=8)` response confirms the cancellation
(phone_verification.py line 186). -/
def confirms_cancel : Option String → Bool
  | none => false
  | some data => pyContains "ACCESS_CANCEL" data || pyContains "ACCESS_ACTIVATION_CANCEL" data

/-- Whether a `setStatus(status=6)` response confirms the success report
(phone_verification.py line 224). -/
def confirms_success : Option String → Bool
  | none => false
  | some data => pyContains "ACCESS_ACTIVATION_SUCCESS" data

/-- `cancel_current_activation` of phone_verification.py: returns the boolean
result and the manager state afterwards.  The activation id is cleared only on
a confirming response. -/
def cancel_current_activation (st : PVState) (resp : Option String) : Bool × PVState :=
  if isTruthy st.current_activation_id then
    if confirms_cancel resp then (true, ⟨none, none⟩) else (false, st)
  else
    (true, st)

/-- `report_success` of phone_verification.py: returns the boolean result and
the manager state afterwards.  The activation id is cleared only on a
confirming response. -/
def report_success (st : PVState) (resp : Option String) : Bool × PVState :=
  if isTruthy st.current_activation_id then
    if confirms_success resp then (true, ⟨none, none⟩) else (false, st)
  else
    (false, st)

/-- Result of `check_balance`: `ok v` is a normal return (`some` balance text
or `none`), `raised` is the uncaught `IndexError` from `data.split(':')[1]`
when the response has no second segment. -/
inductive BalanceResult where
  | ok (v : Option String)
  | raised
deriving Repr, DecidableEq

/-- Digits-only test used by the float-literal recogniser. -/
def digitsOnly (l : List Char) : Bool := l.all (fun c => c.isDigit)

/-- Body of a decimal float literal: digits with an optional fractional part. -/
def floatBody (l : List Char) : Bool :=
  match l.span (fun c => c.isDigit) with
  | (intPart, rest) =>
    match rest with
    | [] => !intPart.isEmpty
    | '.' :: frac => (!intPart.isEmpty || !frac.isEmpty) && digitsOnly frac
    | _ => false

/-- Whether Python's `float(s)` succeeds, modelled on plain decimal literals
(an optional sign, digits, an optional fractional part); the provider's
balance responses are of this shape. -/
def pyFloatOk (s : String) : Bool :=
  match s.toList with
  | '+' :: rest => floatBody rest
  | '-' :: rest => floatBody rest
  | l => floatBody l

/-- `check_balance` of phone_verification.py (lines 237-266).  A `none`
response models a `requests.RequestException` (caught, returns `None`); a
non-numeric second segment raises `ValueError` (caught, returns `None`); a
response containing `ACCESS_BALANCE` but with no second segment raises an
uncaught `IndexError` at `data.split(':')[1]`. -/
def check_balance (resp : Option String) : BalanceResult :=
  match resp with
  | none => .ok none
  | some data =>
    if pyContains "ACCESS_BALANCE" data then
      match pySplit data with
      | _ :: v :: _ => if pyFloatOk v then .ok (some v) else .ok none
      | _ => .raised
    else
      .ok none

/-- The page state examined by `_requires_phone_verification`
(account_creator.py lines 421-443): whether the birth-date day field and the
phone-number field are present. -/
structure SignupPage where
  hasDayField : Bool
  hasPhoneField : Bool
deriving Repr, DecidableEq

/-- `_requires_phone_verification` of account_creator.py: returns the boolean
result together with whether the ambiguous-state warning (line 442) was
logged.  The day field is checked first; if it is absent the phone field is
checked; if both lookups fail the warning is logged and `False` is returned. -/
def requires_phone_verification (page : SignupPage) : Bool × Bool :=
  if page.hasDayField then (false, false)
  else if page.hasPhoneField then (true, false)
  else (false, true)

/-- `_fill_username_step` of account_creator.py (lines 349-397), run on fuel
because the source recursion is unbounded.  `manual` is
`user_data.get('manual_username')` (`""` is falsy, forcing generation);
`gens` is the stream of usernames `generate_username` produces, consumed from
`genIdx`; `warning subIdx` says whether the rejection indicator
(`USERNAME_WARNING`) appears after submission number `subIdx`.  On success it
returns the step's return value together with the list of usernames entered,
in order.  `none` means the fuel ran out with the warning still appearing. -/
def fill_username_step (gens : Nat → String) (warning : Nat → Bool) :
    String → Nat → Nat → Nat → Option (String × List String)
  | _, _, _, 0 => none
  | manual, genIdx, subIdx, fuel + 1 =>
    let username := if manual ≠ "" then manual else gens genIdx
    let genIdx' := if manual ≠ "" then genIdx else genIdx + 1
    if warning subIdx then
      match fill_username_step gens warning "" genIdx' (subIdx + 1) fuel with
      | none => none
      | some (u, entered) => some (u, username :: entered)
    else
      some (username, [username])

/-- Page interactions of `_handle_phone_verification` that go through
`wait_for_element` / `_click_next_button` and therefore can raise: `false`
means the interaction raised. -/
structure PageOracle where
  phone_field_ok : Bool
  next_after_phone_ok : Bool
  code_field_ok : Bool
  next_after_code_ok : Bool
deriving Repr, DecidableEq

/-- External behaviour visible to `_handle_phone_verification`: the provider
response streams for `getNumber` and `getStatus`, the retry budgets, the page
interactions, and the provider's responses to the cancel and success-report
`setStatus` calls. -/
structure HPVOracle where
  number_responses : Nat → Option String
  number_max : Nat
  status_responses : Nat → Option String
  status_max : Nat
  page : PageOracle
  cancel_resp : Option String
  report_resp : Option String

/-- Outcome of `_handle_phone_verification`: a normal `return success, phone`
or an exception escaping to `_create_single_account`. -/
inductive HPVResult where
  | ret (ok : Bool) (phone : String)
  | exn
deriving Repr, DecidableEq

/-- `_handle_phone_verification` of account_creator.py (lines 445-485),
threading the `PhoneVerificationManager` state.  `none` means the
code-polling loop ran out of fuel (the source loop need not terminate). -/
def handle_phone_verification (o : HPVOracle) (st : PVState) (fuel : Nat) :
    Option (HPVResult × PVState) :=
  let gn := get_phone_number o.number_responses o.number_max st
  if gn.ok = false then some (.ret false "", gn.state)
  else
    let phone := gn.value.getD ""
    if o.page.phone_field_ok = false then some (.exn, gn.state)
    else if o.page.next_after_phone_ok = false then some (.exn, gn.state)
    else
      match get_verification_code gn.state o.status_responses o.status_max fuel with
      | none => none
      | some (.crash, _) => some (.exn, gn.state)
      | some (.ret false _, _) =>
        some (.ret false phone, (cancel_current_activation gn.state o.cancel_resp).2)
      | some (.ret true _, _) =>
        if o.page.code_field_ok = false then some (.exn, gn.state)
        else if o.page.next_after_code_ok = false then some (.exn, gn.state)
        else
          some (.ret true phone, (report_success gn.state o.report_resp).2)

/-- The behaviour of one attempt as visible to `_create_single_account`:
whether the navigation and the name/birthday/username/password steps complete
without raising, the page state for phone-requirement detection, the phone
verification oracle, and whether `_complete_final_steps` and
`save_created_account` succeed. -/
structure AttemptOracle where
  pre_steps_ok : Bool
  page : SignupPage
  hpv : HPVOracle
  final_steps_ok : Bool
  save_ok : Bool

/-- `_create_single_account` of account_creator.py (lines 117-172).  Every
exception inside the attempt is caught at line 168 and turned into `False`;
the `PhoneVerificationManager` state is threaded and returned.  `none` means
the code-polling loop ran out of fuel. -/
def create_single_account (o : AttemptOracle) (st : PVState) (fuel : Nat) :
    Option (Bool × PVState) :=
  if o.pre_steps_ok = false then some (false, st)
  else if (requires_phone_verification o.page).1 then
    match handle_phone_verification o.hpv st fuel with
    | none => none
    | some (.exn, st1) => some (false, st1)
    | some (.ret false _, st1) => some (false, st1)
    | some (.ret true _, st1) =>
      if o.final_steps_ok = false then some (false, st1)
      else if o.save_ok = false then some (false, st1)
      else some (true, st1)
  else
    if o.final_steps_ok = false then some (false, st)
    else if o.save_ok = false then some (false, st)
    else some (true, st)

/-- What one iteration of the `create_accounts` loop does, as seen from the
loop body: `get_user_data` returned nothing, the try-block completed with a
boolean from `_create_single_account`, or some statement of the try-block
raised. -/
inductive IterOutcome where
  | noData
  | completed (success : Bool)
  | exn
deriving Repr, DecidableEq

/-- Trace record of one iteration of `create_accounts`: the index processed,
its outcome, whether `browser_manager.close()` was called, and the
inter-attempt cooldown with the `random.uniform` range it was drawn from
(`none` on the `continue` path, which sleeps nothing). -/
structure IterRecord where
  idx : Nat
  outcome : IterOutcome
  closed : Bool
  cooldown_range : Option (ℚ × ℚ)
  cooldown : Option ℚ
deriving Repr, DecidableEq

/-- Final state of `create_accounts`: the success/failure counters and the
per-iteration trace. -/
structure RunResult where
  successful_accounts : Nat
  failed_accounts : Nat
  records : List IterRecord
deriving Repr, DecidableEq

/-- `random.uniform lo hi` when the generator's unit draw is `r`. -/
def uniform (lo hi r : ℚ) : ℚ := lo + (hi - lo) * r

/-- The `while self.current_index < user_count` loop of `create_accounts`
(account_creator.py lines 69-112).  `outcomes i` is what iteration `i`'s
try-block does; `rand i` is the unit draw `random.uniform` receives at
iteration `i`; `remaining` is `user_count - idx`.  A missing-user-data
iteration takes the `continue` path (no close, no sleep); a completed
iteration closes the browser and sleeps `uniform(5, 15)`; an exception is
caught, counted as a failure, the browser is closed and the loop sleeps
`uniform(10, 30)`. -/
def create_accounts_loop (outcomes : Nat → IterOutcome) (rand : Nat → ℚ)
    (idx succ fail : Nat) (acc : List IterRecord) : Nat → RunResult
  | 0 => ⟨succ, fail, acc⟩
  | remaining + 1 =>
    match outcomes idx with
    | .noData =>
      create_accounts_loop outcomes rand (idx + 1) succ (fail + 1)
        (acc ++ [⟨idx, .noData, false, none, none⟩]) remaining
    | .completed s =>
      create_accounts_loop outcomes rand (idx + 1)
        (if s then succ + 1 else succ) (if s then fail else fail + 1)
        (acc ++ [⟨idx, .completed s, true, some (5, 15), some (uniform 5 15 (rand idx))⟩])
        remaining
    | .exn =>
      create_accounts_loop outcomes rand (idx + 1) succ (fail + 1)
        (acc ++ [⟨idx, .exn, true, some (10, 30), some (uniform 10 30 (rand idx))⟩])
        remaining

/-- `create_accounts` of account_creator.py (lines 59-115). -/
def create_accounts (outcomes : Nat → IterOutcome) (rand : Nat → ℚ)
    (user_count : Nat) : RunResult :=
  create_accounts_loop outcomes rand 0 0 0 [] user_count

/-- Modelled from the spec: the `await_code` polling budget as the spec words
it — a waiting response does not consume a retry attempt while genuine errors
(request failures, unexpected responses) do; used only to compare with
`get_verification_code_loop`, which is translated from the source. -/
def await_code_spec (responses : Nat → Option String) (maxAttempts : Nat) :
    Nat → Nat → Nat → Option (GVCResult × Nat)
  | _, _, 0 => none
  | attempt, callIdx, fuel + 1 =>
    if attempt < maxAttempts then
      match responses callIdx with
      | none => await_code_spec responses maxAttempts (attempt + 1) (callIdx + 1) fuel
      | some data =>
        if pyContains "STATUS_OK" data then
          match pySplit data with
          | _ :: code :: _ => some (.ret true (some code), callIdx + 1)
          | _ => await_code_spec responses maxAttempts (attempt + 1) (callIdx + 1) fuel
        else if pyContains "STATUS_WAIT_CODE" data then
          await_code_spec responses maxAttempts attempt (callIdx + 1) fuel
        else if pyContains "STATUS_CANCEL" data then
          some (.ret false (some "Activation cancelled"), callIdx + 1)
        else
          await_code_spec responses maxAttempts (attempt + 1) (callIdx + 1) fuel
    else
      some (.ret false none, callIdx)

theorem pc_an_nn : pyContains "ACCESS_NUMBER" "NO_NUMBERS" = false := by decide

theorem pc_nn_nn : pyContains "NO_NUMBERS" "NO_NUMBERS" = true := by decide

theorem pc_an_nb : pyContains "ACCESS_NUMBER" "NO_BALANCE" = false := by decide

theorem pc_nn_nb : pyContains "NO_NUMBERS" "NO_BALANCE" = false := by decide

theorem pc_nb_nb : pyContains "NO_BALANCE" "NO_BALANCE" = true := by decide

theorem pc_an_bk : pyContains "ACCESS_NUMBER" "BAD_KEY" = false := by decide

theorem pc_nn_bk : pyContains "NO_NUMBERS" "BAD_KEY" = false := by decide

theorem pc_nb_bk : pyContains "NO_BALANCE" "BAD_KEY" = false := by decide

theorem pc_bk_bk : pyContains "BAD_KEY" "BAD_KEY" = true := by decide

theorem pc_an_acc : pyContains "ACCESS_NUMBER" "ACCESS_NUMBER:42:611234567" = true := by decide

theorem split_acc : pySplit "ACCESS_NUMBER:42:611234567" = ["ACCESS_NUMBER", "42", "611234567"] := by
  decide

theorem pc_ok_wait : pyContains "STATUS_OK" "STATUS_WAIT_CODE" = false := by decide

theorem pc_wait_wait : pyContains "STATUS_WAIT_CODE" "STATUS_WAIT_CODE" = true := by decide

theorem pc_ok_ok998877 : pyContains "STATUS_OK" "STATUS_OK:998877" = true := by decide

theorem split_ok998877 : pySplit "STATUS_OK:998877" = ["STATUS_OK", "998877"] := by decide

theorem pc_ok_cancel : pyContains "STATUS_OK" "STATUS_CANCEL" = false := by decide

theorem pc_wait_cancel : pyContains "STATUS_WAIT_CODE" "STATUS_CANCEL" = false := by decide

theorem pc_cancel_cancel : pyContains "STATUS_CANCEL" "STATUS_CANCEL" = true := by decide

example : pyContains "NO_NUMBERS" "NO_NUMBERS" = true := by decide
example : pyContains "ACCESS_NUMBER" "NO_NUMBERS" = false := by decide
example : pySplit "ACCESS_NUMBER:42:611234567" = ["ACCESS_NUMBER", "42", "611234567"] := by decide
example :
    get_phone_number (fun n => if n < 2 then some "NO_NUMBERS" else some "ACCESS_NUMBER:42:611234567")
      10 ⟨none, none⟩ =
    ⟨3, [2, 3, 2, 3], true, some "+611234567", ⟨some "42", some "611234567"⟩⟩ := by decide
example :
    get_verification_code_loop
      (fun n => if n = 0 then some "STATUS_WAIT_CODE" else if n = 1 then none
                else some "STATUS_OK:998877") 1 0 0 none 10 =
    some (.ret true (some "998877"), 3) := by decide
example : check_balance (some "ACCESS_BALANCE") = .raised := by decide
example : check_balance (some "ACCESS_BALANCE:10.50") = .ok (some "10.50") := by decide
example :
    create_single_account
      { pre_steps_ok := true
        page := ⟨false, true⟩
        hpv :=
          { number_responses := fun _ => some "ACCESS_NUMBER:42:611234567"
            number_max := 10
            status_responses := fun _ => some "STATUS_OK:123456"
            status_max := 10
            page := ⟨true, true, true, true⟩
            cancel_resp := none
            report_resp := some "ERROR_SQL" }
        final_steps_ok := true
        save_ok := true }
      ⟨none, none⟩ 20 =
    some (true, ⟨some "42", some "611234567"⟩) := by decide
example :
    create_accounts
      (fun n => if n = 0 then .completed false else .completed true)
      (fun n => if n = 0 then 1/10 else 9/10) 2 =
    ⟨1, 1, [⟨0, .completed false, true, some (5, 15), some 6⟩,
            ⟨1, .completed true, true, some (5, 15), some 14⟩]⟩ := by
  simp only [create_accounts, create_accounts_loop, uniform]
  norm_num
example :
    fill_username_step (fun n => "gen" ++ toString n) (fun n => n = 0) "joe" 0 0 5 =
    some ("gen0", ["joe", "gen0"]) := by decide
example :
    await_code_spec
      (fun n => if n = 0 then some "STATUS_WAIT_CODE" else if n = 1 then none
                else some "STATUS_OK:998877") 1 0 0 10 =
    some (.ret false none, 2) := by decide

/-- Claim C7: phone-requirement detection after the password step returns
"not required" when the birth-date day field is present; otherwise "required"
when the phone-number field is present; and when neither field is found it
logs a warning and conservatively returns "not required" — three exhaustive
cases checked in exactly this order (the day field wins even when both are
present, and the warning fires exactly when both are absent). -/
theorem requires_phone_verification_cases (page : SignupPage) :
    (requires_phone_verification page).1 = (!page.hasDayField && page.hasPhoneField) ∧
    (requires_phone_verification page).2 = (!page.hasDayField && !page.hasPhoneField) := by
  obtain ⟨d, p⟩ := page
  cases d <;> cases p <;> simp [requires_phone_verification]

/-- Claim C10: with no active activation id in the client,
`get_verification_code` returns failure with message "No active phone number"
after zero provider calls, `cancel_current_activation` returns `True`, and
`report_success` returns `False`; none of them contacts the provider or
changes the manager state. -/
theorem no_active_lease_short_circuits (st : PVState) (responses : Nat → Option String)
    (maxAttempts fuel : Nat) (cancelResp reportResp : Option String)
    (h : isTruthy st.current_activation_id = false) :
    get_verification_code st responses maxAttempts fuel =
      some (.ret false (some "No active phone number"), 0) ∧
    cancel_current_activation st cancelResp = (true, st) ∧
    report_success st reportResp = (false, st) := by
  simp [get_verification_code, cancel_current_activation, report_success, h]

theorem no_active_lease_short_circuits_witness :
    get_verification_code ⟨none, none⟩ (fun _ => some "STATUS_OK:1") 10 10 =
      some (.ret false (some "No active phone number"), 0) ∧
    cancel_current_activation ⟨none, none⟩ (some "ACCESS_CANCEL") = (true, ⟨none, none⟩) ∧
    report_success ⟨none, none⟩ (some "ACCESS_ACTIVATION_SUCCESS") = (false, ⟨none, none⟩) :=
  no_active_lease_short_circuits ⟨none, none⟩ (fun _ => some "STATUS_OK:1") 10 10
    (some "ACCESS_CANCEL") (some "ACCESS_ACTIVATION_SUCCESS") (by decide)

/-- Claim C6: when the rejection indicator appears after the first submission
and is absent after the second, the username step returns the username entered
on the second submission, which is freshly generated because the retry
recurses with the manual username cleared: the step returns `gens 0` when a
manual username was used first (and `gens 1` when the first entry was itself
generated), never the first entered username's source. -/
theorem fill_username_step_returns_regenerated (manual : String) (gens : Nat → String)
    (warning : Nat → Bool) (fuel : Nat) (h0 : warning 0 = true) (h1 : warning 1 = false)
    (hf : 2 ≤ fuel) :
    fill_username_step gens warning manual 0 0 fuel =
      some (if manual ≠ "" then gens 0 else gens 1,
            [if manual ≠ "" then manual else gens 0,
             if manual ≠ "" then gens 0 else gens 1]) := by
  obtain ⟨f, rfl⟩ : ∃ f, fuel = f + 2 := ⟨fuel - 2, by omega⟩
  by_cases hm : manual = "" <;> simp [fill_username_step, h0, h1, hm]

theorem fill_username_step_returns_regenerated_witness :
    fill_username_step (fun n => "gen" ++ toString n) (fun n => n == 0) "joe" 0 0 5 =
      some ("gen0", ["joe", "gen0"]) := by
  have h := fill_username_step_returns_regenerated "joe" (fun n => "gen" ++ toString n)
    (fun n => n == 0) 5 (by decide) (by decide) (by omega)
  simpa using h

/-- Claim C8 (recording the code's divergence from it): `check_balance` raises
an uncaught `IndexError` on the response `ACCESS_BALANCE` with no `:<amount>`
segment, while the sibling parsers tolerate missing segments —
`get_phone_number` on `ACCESS_NUMBER:42` (fewer than three parts) and
`get_verification_code` on `STATUS_OK` (fewer than two parts) both return
normal results. -/
theorem check_balance_raises_on_missing_segment :
    check_balance (some "ACCESS_BALANCE") = .raised ∧
    get_phone_number (fun _ => some "ACCESS_NUMBER:42") 1 ⟨none, none⟩ =
      ⟨1, [3], false, none, ⟨none, none⟩⟩ ∧
    get_verification_code ⟨some "9", none⟩ (fun _ => some "STATUS_OK") 1 5 =
      some (.ret false none, 1) := by
  refine ⟨by decide, by decide, by decide⟩

theorem string_plus_append : "+" ++ "611234567" = "+611234567" := by decide

theorem gpn_all_no_numbers_aux (st : PVState) :
    ∀ remaining callIdx sleeps,
      get_phone_number_loop (fun _ => some "NO_NUMBERS") st callIdx sleeps remaining =
        ⟨callIdx + remaining, sleeps ++ List.flatten (List.replicate remaining [2, 3]),
         false, none, st⟩ := by
  intro remaining
  induction remaining with
  | zero => intro c s; simp [get_phone_number_loop]
  | succ r ih =>
    intro c s
    rw [show c + (r + 1) = (c + 1) + r by omega]
    simp [get_phone_number_loop, pc_an_nn, pc_nn_nn, ih, List.replicate_succ,
      List.append_assoc]

theorem gpn_terminal_no_balance (responses : Nat → Option String) (st : PVState)
    (callIdx r : Nat) (sleeps : List Nat) (h : responses callIdx = some "NO_BALANCE") :
    get_phone_number_loop responses st callIdx sleeps (r + 1) =
      ⟨callIdx + 1, sleeps, false, some "Insufficient balance in SMS-Activate account", st⟩ := by
  simp [get_phone_number_loop, h, pc_an_nb, pc_nn_nb, pc_nb_nb]

theorem gpn_terminal_bad_key (responses : Nat → Option String) (st : PVState)
    (callIdx r : Nat) (sleeps : List Nat) (h : responses callIdx = some "BAD_KEY") :
    get_phone_number_loop responses st callIdx sleeps (r + 1) =
      ⟨callIdx + 1, sleeps, false, some "Invalid API key", st⟩ := by
  simp [get_phone_number_loop, h, pc_an_bk, pc_nn_bk, pc_nb_bk, pc_bk_bk]

theorem gpn_prefix_success (st : PVState) :
    ∀ k (responses : Nat → Option String) callIdx sleeps remaining, k < remaining →
      (∀ n, n < k → responses (callIdx + n) = some "NO_NUMBERS") →
      responses (callIdx + k) = some "ACCESS_NUMBER:42:611234567" →
      get_phone_number_loop responses st callIdx sleeps remaining =
        ⟨callIdx + k + 1, sleeps ++ List.flatten (List.replicate k [2, 3]), true,
         some "+611234567", ⟨some "42", some "611234567"⟩⟩ := by
  intro k
  induction k with
  | zero =>
    intro responses c s rem hlt h1 h2
    obtain ⟨r, rfl⟩ : ∃ r, rem = r + 1 := ⟨rem - 1, by omega⟩
    simp only [Nat.add_zero] at h2
    simp [get_phone_number_loop, h2, pc_an_acc, split_acc, string_plus_append]
  | succ k ih =>
    intro responses c s rem hlt h1 h2
    obtain ⟨r, rfl⟩ : ∃ r, rem = r + 1 := ⟨rem - 1, by omega⟩
    have hc : responses c = some "NO_NUMBERS" := by
      have := h1 0 (by omega); simpa using this
    have hrest := ih responses (c + 1) (s ++ [2, 3]) r (by omega)
      (fun n hn => by
        rw [show c + 1 + n = c + (n + 1) by omega]; exact h1 (n + 1) (by omega))
      (by rw [show c + 1 + k = c + (k + 1) by omega]; exact h2)
    rw [show c + (k + 1) + 1 = (c + 1) + k + 1 by omega]
    simp [get_phone_number_loop, hc, pc_an_nn, pc_nn_nn, hrest, List.replicate_succ,
      List.append_assoc]

/-- Claim C2: `get_phone_number` treats `NO_NUMBERS` as transient, retrying up
to `max_attempts` with the fixed sleep pattern 2s+3s between attempts;
`NO_BALANCE` and `BAD_KEY` on the first call are terminal after exactly one
provider call with no further retry; and `k < max_attempts` `NO_NUMBERS`
responses followed by `ACCESS_NUMBER:42:611234567` yield success on call
`k+1`, returning phone `+611234567` with activation id `42` stored in the
manager state. -/
theorem get_phone_number_retry_and_terminal :
    (∀ maxAttempts (st : PVState),
      get_phone_number (fun _ => some "NO_NUMBERS") maxAttempts st =
        ⟨maxAttempts, List.flatten (List.replicate maxAttempts [2, 3]), false, none, st⟩) ∧
    (∀ (responses : Nat → Option String) maxAttempts (st : PVState), 0 < maxAttempts →
      responses 0 = some "NO_BALANCE" →
      get_phone_number responses maxAttempts st =
        ⟨1, [], false, some "Insufficient balance in SMS-Activate account", st⟩) ∧
    (∀ (responses : Nat → Option String) maxAttempts (st : PVState), 0 < maxAttempts →
      responses 0 = some "BAD_KEY" →
      get_phone_number responses maxAttempts st = ⟨1, [], false, some "Invalid API key", st⟩) ∧
    (∀ k maxAttempts (st : PVState), k < maxAttempts →
      get_phone_number
        (fun n => if n < k then some "NO_NUMBERS" else some "ACCESS_NUMBER:42:611234567")
        maxAttempts st =
        ⟨k + 1, List.flatten (List.replicate k [2, 3]), true, some "+611234567",
         ⟨some "42", some "611234567"⟩⟩) := by
  refine ⟨?_, ?_, ?_, ?_⟩
  · intro maxAttempts st
    have := gpn_all_no_numbers_aux st maxAttempts 0 []
    simpa [get_phone_number] using this
  · intro responses maxAttempts st hm h0
    obtain ⟨r, rfl⟩ : ∃ r, maxAttempts = r + 1 := ⟨maxAttempts - 1, by omega⟩
    have := gpn_terminal_no_balance responses st 0 r [] h0
    simpa [get_phone_number] using this
  · intro responses maxAttempts st hm h0
    obtain ⟨r, rfl⟩ : ∃ r, maxAttempts = r + 1 := ⟨maxAttempts - 1, by omega⟩
    have := gpn_terminal_bad_key responses st 0 r [] h0
    simpa [get_phone_number] using this
  · intro k maxAttempts st hk
    have := gpn_prefix_success st k
      (fun n => if n < k then some "NO_NUMBERS" else some "ACCESS_NUMBER:42:611234567")
      0 [] maxAttempts hk (fun n hn => by simp [hn]) (by simp)
    simpa [get_phone_number] using this

theorem get_phone_number_retry_and_terminal_witness :
    get_phone_number (fun _ => some "NO_NUMBERS") 2 ⟨none, none⟩ =
      ⟨2, [2, 3, 2, 3], false, none, ⟨none, none⟩⟩ ∧
    get_phone_number (fun _ => some "BAD_KEY") 10 ⟨none, none⟩ =
      ⟨1, [], false, some "Invalid API key", ⟨none, none⟩⟩ ∧
    get_phone_number (fun _ => some "NO_BALANCE") 10 ⟨none, none⟩ =
      ⟨1, [], false, some "Insufficient balance in SMS-Activate account", ⟨none, none⟩⟩ ∧
    get_phone_number
      (fun n => if n < 3 then some "NO_NUMBERS" else some "ACCESS_NUMBER:42:611234567")
      10 ⟨none, none⟩ =
      ⟨4, [2, 3, 2, 3, 2, 3], true, some "+611234567", ⟨some "42", some "611234567"⟩⟩ := by
  refine ⟨?_, ?_, ?_, ?_⟩
  · have := get_phone_number_retry_and_terminal.1 2 ⟨none, none⟩
    simpa using this
  · exact get_phone_number_retry_and_terminal.2.2.1 (fun _ => some "BAD_KEY") 10 ⟨none, none⟩
      (by omega) rfl
  · exact get_phone_number_retry_and_terminal.2.1 (fun _ => some "NO_BALANCE") 10 ⟨none, none⟩
      (by omega) rfl
  · have := get_phone_number_retry_and_terminal.2.2.2 3 10 ⟨none, none⟩ (by omega)
    simpa using this

/-- The code-polling loop never produces a result, however much fuel it is
given: every finite number of iterations leaves it still running. -/
def gvc_nonterminating (responses : Nat → Option String) (maxAttempts : Nat) : Prop :=
  ∀ fuel, get_verification_code_loop responses maxAttempts 0 0 none fuel = none

theorem gvc_allwait_aux :
    ∀ fuel callIdx lastData,
      get_verification_code_loop (fun _ => some "STATUS_WAIT_CODE") 10 0 callIdx
        lastData fuel = none := by
  intro fuel
  induction fuel with
  | zero => intro c l; rfl
  | succ f ih =>
    intro c l
    simp [get_verification_code_loop, pc_ok_wait, pc_wait_wait, ih]

/-- Claim C4 counterexample: with `max_attempts = 10` (the `REQUEST_MAX_TRY`
default) and a provider that answers `STATUS_WAIT_CODE` on every poll, the
polling loop of `get_verification_code` never returns: the attempt counter is
decremented on every waiting response, so the loop performs infinitely many
iterations, refuting the claim that it terminates for every response
sequence. -/
theorem get_verification_code_diverges_on_perpetual_wait :
    gvc_nonterminating (fun _ => some "STATUS_WAIT_CODE") 10 := by
  intro fuel
  exact gvc_allwait_aux fuel 0 none

theorem gvc_terminates_aux (responses : Nat → Option String) (maxAttempts N : Nat)
    (h : ∀ n, N ≤ n → ∃ s, responses n = some s ∧ pyContains "STATUS_WAIT_CODE" s = false) :
    ∀ fuel attempt callIdx lastData,
      (N - callIdx) + (maxAttempts - attempt) + 1 ≤ fuel →
      ∃ r, get_verification_code_loop responses maxAttempts attempt callIdx lastData fuel =
        some r := by
  intro fuel
  induction fuel with
  | zero => intro a c l hle; omega
  | succ f ih =>
    intro a c l hle
    by_cases ha : a < maxAttempts
    · rcases hr : responses c with _ | d
      · have hcN : c < N := by
          by_contra hcontra
          obtain ⟨s, hs, _⟩ := h c (by omega)
          rw [hr] at hs
          cases hs
        cases l with
        | none => exact ⟨(.crash, c + 1), by simp [get_verification_code_loop, ha, hr]⟩
        | some stale =>
          cases hw : pyContains "STATUS_WAIT_CODE" stale
          · obtain ⟨r, hrr⟩ := ih (a + 1) (c + 1) (some stale) (by omega)
            exact ⟨r, by simp [get_verification_code_loop, ha, hr, hw, hrr]⟩
          · obtain ⟨r, hrr⟩ := ih a (c + 1) (some stale) (by omega)
            exact ⟨r, by simp [get_verification_code_loop, ha, hr, hw, hrr]⟩
      · have hwd : pyContains "STATUS_WAIT_CODE" d = true → c < N := by
          intro hw
          by_contra hcontra
          obtain ⟨s, hs, hsw⟩ := h c (by omega)
          rw [hr] at hs
          cases hs
          rw [hw] at hsw
          cases hsw
        by_cases hok : pyContains "STATUS_OK" d = true
        · rcases hsp : pySplit d with _ | ⟨x, _ | ⟨code, rest⟩⟩
          · cases hw : pyContains "STATUS_WAIT_CODE" d
            · obtain ⟨r, hrr⟩ := ih (a + 1) (c + 1) (some d) (by omega)
              exact ⟨r, by simp [get_verification_code_loop, ha, hr, hok, hsp, hw, hrr]⟩
            · have hcN := hwd hw
              obtain ⟨r, hrr⟩ := ih a (c + 1) (some d) (by omega)
              exact ⟨r, by simp [get_verification_code_loop, ha, hr, hok, hsp, hw, hrr]⟩
          · cases hw : pyContains "STATUS_WAIT_CODE" d
            · obtain ⟨r, hrr⟩ := ih (a + 1) (c + 1) (some d) (by omega)
              exact ⟨r, by simp [get_verification_code_loop, ha, hr, hok, hsp, hw, hrr]⟩
            · have hcN := hwd hw
              obtain ⟨r, hrr⟩ := ih a (c + 1) (some d) (by omega)
              exact ⟨r, by simp [get_verification_code_loop, ha, hr, hok, hsp, hw, hrr]⟩
          · exact ⟨(.ret true (some code), c + 1),
              by simp [get_verification_code_loop, ha, hr, hok, hsp]⟩
        · cases hw : pyContains "STATUS_WAIT_CODE" d
          · by_cases hcan : pyContains "STATUS_CANCEL" d = true
            · exact ⟨(.ret false (some "Activation cancelled"), c + 1),
                by simp [get_verification_code_loop, ha, hr, hok, hw, hcan]⟩
            · obtain ⟨r, hrr⟩ := ih (a + 1) (c + 1) (some d) (by omega)
              exact ⟨r, by simp [get_verification_code_loop, ha, hr, hok, hw, hcan, hrr]⟩
          · have hcN := hwd hw
            obtain ⟨r, hrr⟩ := ih a (c + 1) (some d) (by omega)
            exact ⟨r, by simp [get_verification_code_loop, ha, hr, hok, hw, hrr]⟩
    · exact ⟨(.ret false none, c), by simp [get_verification_code_loop, ha]⟩

/-- Claim C4 amended: the polling loop of `get_verification_code` terminates
within `N + max_attempts + 1` iterations for every response sequence in which,
from index `N` on, every request succeeds and no response contains
`STATUS_WAIT_CODE`; it does not terminate on a provider that answers
`STATUS_WAIT_CODE` forever, since a waiting response (or a request failure
straight after one) gives back the attempt it consumed. -/
theorem get_verification_code_terminates_without_wait_suffix
    (responses : Nat → Option String) (maxAttempts N : Nat)
    (h : ∀ n, N ≤ n → ∃ s, responses n = some s ∧ pyContains "STATUS_WAIT_CODE" s = false) :
    ∃ r, get_verification_code_loop responses maxAttempts 0 0 none (N + maxAttempts + 1) =
      some r :=
  gvc_terminates_aux responses maxAttempts N h (N + maxAttempts + 1) 0 0 none (by omega)

theorem get_verification_code_terminates_without_wait_suffix_witness :
    (get_verification_code_loop (fun _ => some "STATUS_CANCEL") 2 0 0 none (0 + 2 + 1)).isSome =
      true := by
  obtain ⟨r, hr⟩ := get_verification_code_terminates_without_wait_suffix
    (fun _ => some "STATUS_CANCEL") 2 0 (fun n _ => ⟨"STATUS_CANCEL", rfl, by decide⟩)
  rw [hr]
  rfl

theorem gvc_wait_then_ok_aux (responses : Nat → Option String) (maxAttempts : Nat) :
    ∀ k callIdx attempt lastData fuel, attempt < maxAttempts → k < fuel →
      (∀ n, n < k → responses (callIdx + n) = some "STATUS_WAIT_CODE") →
      responses (callIdx + k) = some "STATUS_OK:998877" →
      get_verification_code_loop responses maxAttempts attempt callIdx lastData fuel =
        some (.ret true (some "998877"), callIdx + k + 1) := by
  intro k
  induction k with
  | zero =>
    intro c a l fuel ha hf h1 h2
    obtain ⟨f, rfl⟩ : ∃ f, fuel = f + 1 := ⟨fuel - 1, by omega⟩
    simp only [Nat.add_zero] at h2
    simp [get_verification_code_loop, ha, h2, pc_ok_ok998877, split_ok998877]
  | succ k ih =>
    intro c a l fuel ha hf h1 h2
    obtain ⟨f, rfl⟩ : ∃ f, fuel = f + 1 := ⟨fuel - 1, by omega⟩
    have hc : responses c = some "STATUS_WAIT_CODE" := by
      have := h1 0 (by omega); simpa using this
    have hrest := ih (c + 1) a (some "STATUS_WAIT_CODE") f ha (by omega)
      (fun n hn => by
        rw [show c + 1 + n = c + (n + 1) by omega]; exact h1 (n + 1) (by omega))
      (by rw [show c + 1 + k = c + (k + 1) by omega]; exact h2)
    rw [show c + (k + 1) + 1 = (c + 1) + k + 1 by omega]
    simp [get_verification_code_loop, ha, hc, pc_ok_wait, pc_wait_wait, hrest]

/-- Claim C3 amended: `get_verification_code` polls with an attempt budget of
`max_attempts` in which a `STATUS_WAIT_CODE` response consumes no attempt
(arbitrarily many waits before `STATUS_OK:998877` still yield code `998877`,
on the poll right after the waits), a `STATUS_CANCEL` response terminates
immediately with failure, and an unexpected response consumes an attempt —
but a request failure consumes an attempt only when the most recently fetched
response did not contain `STATUS_WAIT_CODE` (the wait-check re-reads the stale
text), and a request failure before any successful fetch raises an uncaught
`UnboundLocalError` instead of consuming an attempt. -/
theorem get_verification_code_attempt_budget :
    (∀ (responses : Nat → Option String) maxAttempts k fuel (st : PVState),
      0 < maxAttempts → k < fuel → isTruthy st.current_activation_id = true →
      (∀ n, n < k → responses n = some "STATUS_WAIT_CODE") →
      responses k = some "STATUS_OK:998877" →
      get_verification_code st responses maxAttempts fuel =
        some (.ret true (some "998877"), k + 1)) ∧
    (∀ (responses : Nat → Option String) maxAttempts a c (l : Option String) fuel,
      a < maxAttempts → responses c = some "STATUS_CANCEL" →
      get_verification_code_loop responses maxAttempts a c l (fuel + 1) =
        some (.ret false (some "Activation cancelled"), c + 1)) ∧
    (∀ (responses : Nat → Option String) maxAttempts a c s fuel,
      a < maxAttempts → responses c = none → pyContains "STATUS_WAIT_CODE" s = true →
      get_verification_code_loop responses maxAttempts a c (some s) (fuel + 1) =
        get_verification_code_loop responses maxAttempts a (c + 1) (some s) fuel) ∧
    (∀ (responses : Nat → Option String) maxAttempts a c s fuel,
      a < maxAttempts → responses c = none → pyContains "STATUS_WAIT_CODE" s = false →
      get_verification_code_loop responses maxAttempts a c (some s) (fuel + 1) =
        get_verification_code_loop responses maxAttempts (a + 1) (c + 1) (some s) fuel) ∧
    (∀ (responses : Nat → Option String) maxAttempts a c d fuel,
      a < maxAttempts → responses c = some d →
      pyContains "STATUS_OK" d = false → pyContains "STATUS_WAIT_CODE" d = false →
      pyContains "STATUS_CANCEL" d = false →
      get_verification_code_loop responses maxAttempts a c none (fuel + 1) =
        get_verification_code_loop responses maxAttempts (a + 1) (c + 1) (some d) fuel) ∧
    (∀ (responses : Nat → Option String) maxAttempts a c fuel,
      a < maxAttempts → responses c = none →
      get_verification_code_loop responses maxAttempts a c none (fuel + 1) =
        some (.crash, c + 1)) := by
  refine ⟨?_, ?_, ?_, ?_, ?_, ?_⟩
  · intro responses maxAttempts k fuel st hm hf hid h1 h2
    have := gvc_wait_then_ok_aux responses maxAttempts k 0 0 none fuel hm hf
      (fun n hn => by simpa using h1 n hn) (by simpa using h2)
    simpa [get_verification_code, hid] using this
  · intro responses maxAttempts a c l fuel ha hc
    simp [get_verification_code_loop, ha, hc, pc_ok_cancel, pc_wait_cancel, pc_cancel_cancel]
  · intro responses maxAttempts a c s fuel ha hc hw
    simp [get_verification_code_loop, ha, hc, hw]
  · intro responses maxAttempts a c s fuel ha hc hw
    simp [get_verification_code_loop, ha, hc, hw]
  · intro responses maxAttempts a c d fuel ha hc hok hw hcan
    simp [get_verification_code_loop, ha, hc, hok, hw, hcan]
  · intro responses maxAttempts a c fuel ha hc
    simp [get_verification_code_loop, ha, hc]

theorem get_verification_code_attempt_budget_witness :
    get_verification_code ⟨some "77", none⟩
      (fun n => if n < 4 then some "STATUS_WAIT_CODE" else some "STATUS_OK:998877") 1 9 =
      some (.ret true (some "998877"), 5) ∧
    get_verification_code_loop (fun _ => some "STATUS_CANCEL") 10 0 0 none 7 =
      some (.ret false (some "Activation cancelled"), 1) ∧
    get_verification_code_loop (fun _ => none) 10 0 0 none 7 = some (.crash, 1) := by
  refine ⟨?_, ?_, ?_⟩
  · exact get_verification_code_attempt_budget.1
      (fun n => if n < 4 then some "STATUS_WAIT_CODE" else some "STATUS_OK:998877")
      1 4 9 ⟨some "77", none⟩ (by omega) (by omega) (by decide)
      (fun n hn => by simp [hn]) (by simp)
  · exact get_verification_code_attempt_budget.2.1 (fun _ => some "STATUS_CANCEL") 10 0 0
      none 6 (by omega) rfl
  · exact get_verification_code_attempt_budget.2.2.2.2.2 (fun _ => none) 10 0 0 6
      (by omega) rfl

/-- A waiting response, then a request failure, then the code: the sequence on
which the stale-data wait-check departs from the spec's budget accounting. -/
def stale_wait_responses : Nat → Option String := fun n =>
  if n = 0 then some "STATUS_WAIT_CODE" else if n = 1 then none
  else some "STATUS_OK:998877"

/-- Claim C3 counterexample: with an attempt budget of 1, a waiting response
then a request failure then `STATUS_OK:998877`.  Under the claim's accounting
the request failure at poll 2 is a genuine error consuming the only attempt,
so the run ends in failure after 2 polls — `await_code_spec`, modelled from
the spec's words, does exactly that.  The source instead re-reads the stale
`STATUS_WAIT_CODE` text at the wait-check, consumes nothing, and succeeds
with code `998877` on poll 3. -/
theorem get_verification_code_stale_wait_disagrees_with_spec :
    await_code_spec stale_wait_responses 1 0 0 10 = some (.ret false none, 2) ∧
    get_verification_code_loop stale_wait_responses 1 0 0 none 10 =
      some (.ret true (some "998877"), 3) :=
  ⟨by decide, by decide⟩

theorem create_accounts_loop_acc (outcomes : Nat → IterOutcome) (rand : Nat → ℚ) :
    ∀ remaining idx succ fail acc,
      create_accounts_loop outcomes rand idx succ fail acc remaining =
        ⟨(create_accounts_loop outcomes rand idx succ fail [] remaining).successful_accounts,
         (create_accounts_loop outcomes rand idx succ fail [] remaining).failed_accounts,
         acc ++ (create_accounts_loop outcomes rand idx succ fail [] remaining).records⟩ := by
  intro remaining
  induction remaining with
  | zero => intro idx succ fail acc; simp [create_accounts_loop]
  | succ r ih =>
    intro idx succ fail acc
    cases h : outcomes idx with
    | noData =>
      have h1 := ih (idx + 1) succ (fail + 1) (acc ++ [⟨idx, .noData, false, none, none⟩])
      have h2 := ih (idx + 1) succ (fail + 1) [⟨idx, .noData, false, none, none⟩]
      simp only [create_accounts_loop, h, List.nil_append]
      rw [h1, h2]
      simp [List.append_assoc]
    | completed s =>
      have h1 := ih (idx + 1) (if s then succ + 1 else succ) (if s then fail else fail + 1)
        (acc ++ [⟨idx, .completed s, true, some (5, 15), some (uniform 5 15 (rand idx))⟩])
      have h2 := ih (idx + 1) (if s then succ + 1 else succ) (if s then fail else fail + 1)
        [⟨idx, .completed s, true, some (5, 15), some (uniform 5 15 (rand idx))⟩]
      simp only [create_accounts_loop, h, List.nil_append]
      rw [h1, h2]
      simp [List.append_assoc]
    | exn =>
      have h1 := ih (idx + 1) succ (fail + 1)
        (acc ++ [⟨idx, .exn, true, some (10, 30), some (uniform 10 30 (rand idx))⟩])
      have h2 := ih (idx + 1) succ (fail + 1)
        [⟨idx, .exn, true, some (10, 30), some (uniform 10 30 (rand idx))⟩]
      simp only [create_accounts_loop, h, List.nil_append]
      rw [h1, h2]
      simp [List.append_assoc]

theorem create_accounts_loop_counts (outcomes : Nat → IterOutcome) (rand : Nat → ℚ) :
    ∀ remaining idx succ fail,
      (create_accounts_loop outcomes rand idx succ fail [] remaining).successful_accounts +
        (create_accounts_loop outcomes rand idx succ fail [] remaining).failed_accounts =
        succ + fail + remaining := by
  intro remaining
  induction remaining with
  | zero => intro idx succ fail; simp [create_accounts_loop]
  | succ r ih =>
    intro idx succ fail
    cases h : outcomes idx with
    | noData =>
      simp only [create_accounts_loop, h, List.nil_append]
      rw [create_accounts_loop_acc]
      have := ih (idx + 1) succ (fail + 1)
      simp only at this ⊢
      omega
    | completed s =>
      simp only [create_accounts_loop, h, List.nil_append]
      rw [create_accounts_loop_acc]
      have := ih (idx + 1) (if s then succ + 1 else succ) (if s then fail else fail + 1)
      cases s <;> simp only [if_true, if_false, Bool.false_eq_true, ite_true, ite_false] at this ⊢ <;> omega
    | exn =>
      simp only [create_accounts_loop, h, List.nil_append]
      rw [create_accounts_loop_acc]
      have := ih (idx + 1) succ (fail + 1)
      simp only at this ⊢
      omega

theorem create_accounts_loop_idxs (outcomes : Nat → IterOutcome) (rand : Nat → ℚ) :
    ∀ remaining idx succ fail,
      (create_accounts_loop outcomes rand idx succ fail [] remaining).records.map
        IterRecord.idx = List.range' idx remaining := by
  intro remaining
  induction remaining with
  | zero => intro idx succ fail; simp [create_accounts_loop]
  | succ r ih =>
    intro idx succ fail
    rw [List.range'_succ]
    cases h : outcomes idx <;>
      simp only [create_accounts_loop, h, List.nil_append] <;>
      rw [create_accounts_loop_acc] <;>
      simp [ih]

theorem create_accounts_loop_succ_count (outcomes : Nat → IterOutcome) (rand : Nat → ℚ) :
    ∀ remaining idx succ fail,
      (create_accounts_loop outcomes rand idx succ fail [] remaining).successful_accounts =
        succ + ((create_accounts_loop outcomes rand idx succ fail [] remaining).records.countP
          (fun rec => rec.outcome == .completed true)) := by
  intro remaining
  induction remaining with
  | zero => intro idx succ fail; simp [create_accounts_loop]
  | succ r ih =>
    intro idx succ fail
    cases h : outcomes idx with
    | noData =>
      simp only [create_accounts_loop, h, List.nil_append]
      rw [create_accounts_loop_acc]
      have hih := ih (idx + 1) succ (fail + 1)
      have hp : (fun rec => rec.outcome == IterOutcome.completed true)
          (⟨idx, .noData, false, none, none⟩ : IterRecord) = false := rfl
      simp only [List.singleton_append, List.countP_cons, hp]
      simpa using hih
    | completed s =>
      cases s with
      | true =>
        simp only [create_accounts_loop, h, if_true]
        rw [create_accounts_loop_acc]
        have hih := ih (idx + 1) (succ + 1) fail
        have hp : (fun rec => rec.outcome == IterOutcome.completed true)
            (⟨idx, .completed true, true, some (5, 15),
              some (uniform 5 15 (rand idx))⟩ : IterRecord) = true := rfl
        simp only [List.nil_append, List.singleton_append, List.countP_cons, hp]
        simp only at hih
        simp [hih]
        omega
      | false =>
        simp only [create_accounts_loop, h]
        rw [create_accounts_loop_acc]
        have hih := ih (idx + 1) succ (fail + 1)
        have hp : (fun rec => rec.outcome == IterOutcome.completed true)
            (⟨idx, .completed false, true, some (5, 15),
              some (uniform 5 15 (rand idx))⟩ : IterRecord) = false := rfl
        simp only [List.nil_append, List.singleton_append, List.countP_cons, hp]
        simpa using hih
    | exn =>
      simp only [create_accounts_loop, h, List.nil_append]
      rw [create_accounts_loop_acc]
      have hih := ih (idx + 1) succ (fail + 1)
      have hp : (fun rec => rec.outcome == IterOutcome.completed true)
          (⟨idx, .exn, true, some (10, 30), some (uniform 10 30 (rand idx))⟩ : IterRecord) =
          false := rfl
      simp only [List.singleton_append, List.countP_cons, hp]
      simpa using hih

theorem create_accounts_loop_rec_facts (outcomes : Nat → IterOutcome) (rand : Nat → ℚ) :
    ∀ remaining idx succ fail rec,
      rec ∈ (create_accounts_loop outcomes rand idx succ fail [] remaining).records →
      rec.outcome = outcomes rec.idx ∧
      (rec.outcome = .exn → rec.closed = true ∧ rec.cooldown_range = some (10, 30) ∧
        rec.cooldown = some (uniform 10 30 (rand rec.idx))) ∧
      (∀ b, rec.outcome = .completed b → rec.closed = true ∧
        rec.cooldown_range = some (5, 15) ∧ rec.cooldown = some (uniform 5 15 (rand rec.idx))) ∧
      (rec.outcome = .noData → rec.closed = false ∧ rec.cooldown_range = none ∧
        rec.cooldown = none) := by
  intro remaining
  induction remaining with
  | zero => intro idx succ fail rec hm; simp [create_accounts_loop] at hm
  | succ r ih =>
    intro idx succ fail rec hm
    cases h : outcomes idx with
    | noData =>
      rw [show create_accounts_loop outcomes rand idx succ fail [] (r + 1) =
            create_accounts_loop outcomes rand (idx + 1) succ (fail + 1)
              ([] ++ [⟨idx, .noData, false, none, none⟩]) r by
          simp [create_accounts_loop, h],
        create_accounts_loop_acc] at hm
      simp only [List.nil_append, List.mem_append, List.mem_singleton] at hm
      rcases hm with rfl | hm
      · simp [h]
      · exact ih (idx + 1) succ (fail + 1) rec hm
    | completed s =>
      rw [show create_accounts_loop outcomes rand idx succ fail [] (r + 1) =
            create_accounts_loop outcomes rand (idx + 1) (if s then succ + 1 else succ)
              (if s then fail else fail + 1)
              ([] ++ [⟨idx, .completed s, true, some (5, 15),
                some (uniform 5 15 (rand idx))⟩]) r by
          simp [create_accounts_loop, h],
        create_accounts_loop_acc] at hm
      simp only [List.nil_append, List.mem_append, List.mem_singleton] at hm
      rcases hm with rfl | hm
      · simp [h]
      · exact ih (idx + 1) (if s then succ + 1 else succ) (if s then fail else fail + 1) rec hm
    | exn =>
      rw [show create_accounts_loop outcomes rand idx succ fail [] (r + 1) =
            create_accounts_loop outcomes rand (idx + 1) succ (fail + 1)
              ([] ++ [⟨idx, .exn, true, some (10, 30), some (uniform 10 30 (rand idx))⟩]) r by
          simp [create_accounts_loop, h],
        create_accounts_loop_acc] at hm
      simp only [List.nil_append, List.mem_append, List.mem_singleton] at hm
      rcases hm with rfl | hm
      · simp [h]
      · exact ih (idx + 1) succ (fail + 1) rec hm

theorem uniform_mem (lo hi r : ℚ) (h0 : 0 ≤ r) (h1 : r ≤ 1) (hlh : lo ≤ hi) :
    lo ≤ uniform lo hi r ∧ uniform lo hi r ≤ hi := by
  unfold uniform
  constructor <;> nlinarith

/-- Claim C5: the multi-account loop absorbs every exception raised inside an
attempt: `create_accounts` always runs to completion over all `user_count`
indices (the record trace covers exactly the index range, so no exception
escapes the loop), the success and failure counters sum to `user_count`, only
attempts that completed with success are counted successful (an exception is
therefore counted as a failure), and every exception iteration closes the
browser and cools down from the extended `uniform(10, 30)` range. -/
theorem create_accounts_absorbs_exceptions (outcomes : Nat → IterOutcome) (rand : Nat → ℚ)
    (user_count : Nat) :
    (create_accounts outcomes rand user_count).successful_accounts +
      (create_accounts outcomes rand user_count).failed_accounts = user_count ∧
    (create_accounts outcomes rand user_count).records.map IterRecord.idx =
      List.range user_count ∧
    (create_accounts outcomes rand user_count).successful_accounts =
      (create_accounts outcomes rand user_count).records.countP
        (fun rec => rec.outcome == .completed true) ∧
    ∀ rec ∈ (create_accounts outcomes rand user_count).records,
      rec.outcome = outcomes rec.idx ∧
      (rec.outcome = .exn → rec.closed = true ∧ rec.cooldown_range = some (10, 30)) := by
  refine ⟨?_, ?_, ?_, ?_⟩
  · have := create_accounts_loop_counts outcomes rand user_count 0 0 0
    simpa [create_accounts] using this
  · have := create_accounts_loop_idxs outcomes rand user_count 0 0 0
    rw [List.range_eq_range']
    simpa [create_accounts] using this
  · have := create_accounts_loop_succ_count outcomes rand user_count 0 0 0
    simpa [create_accounts] using this
  · intro rec hm
    have h := create_accounts_loop_rec_facts outcomes rand user_count 0 0 0 rec hm
    exact ⟨h.1, fun he => ⟨(h.2.1 he).1, (h.2.1 he).2.1⟩⟩

theorem create_accounts_absorbs_exceptions_witness :
    (create_accounts (fun _ => IterOutcome.exn) (fun _ => 0) 1).successful_accounts +
      (create_accounts (fun _ => IterOutcome.exn) (fun _ => 0) 1).failed_accounts = 1 ∧
    (⟨0, .exn, true, some (10, 30), some (uniform 10 30 0)⟩ : IterRecord).closed = true ∧
    (⟨0, .exn, true, some (10, 30), some (uniform 10 30 0)⟩ : IterRecord).cooldown_range =
      some (10, 30) := by
  have hm : (⟨0, .exn, true, some (10, 30), some (uniform 10 30 0)⟩ : IterRecord) ∈
      (create_accounts (fun _ => IterOutcome.exn) (fun _ => 0) 1).records := by
    simp [create_accounts, create_accounts_loop]
  refine ⟨(create_accounts_absorbs_exceptions (fun _ => IterOutcome.exn) (fun _ => 0) 1).1, ?_⟩
  exact (create_accounts_absorbs_exceptions (fun _ => IterOutcome.exn)
    (fun _ => 0) 1).2.2.2 _ hm |>.2 rfl

/-- Claim C9 counterexample: a run of two attempts in which the first fails
(normally) and the second succeeds.  Both draw their cooldown from the same
`uniform(5, 15)` range — only the exception path uses `uniform(10, 30)` — and
the concrete draws give a cooldown of 6 seconds after the failed attempt and
14 seconds after the successful one, refuting the claim that the cooldown
after every failed attempt is longer than after a successful one. -/
theorem cooldown_after_failure_not_longer :
    create_accounts (fun n => if n = 0 then .completed false else .completed true)
      (fun n => if n = 0 then 1/10 else 9/10) 2 =
      ⟨1, 1, [⟨0, .completed false, true, some (5, 15), some 6⟩,
              ⟨1, .completed true, true, some (5, 15), some 14⟩]⟩ ∧
    (6 : ℚ) < 14 := by
  refine ⟨?_, by norm_num⟩
  simp only [create_accounts, create_accounts_loop, uniform]
  norm_num

/-- Claim C9 amended: the orchestrator draws a randomized cooldown between
attempts, from `uniform(5, 15)` after every normally-completed attempt —
successful or failed alike — and from the higher `uniform(10, 30)` range only
after an attempt that ended in an unexpected exception; with a unit draw in
`[0, 1]` the cooldown always lies inside its range, but a failed attempt's
cooldown need not exceed a successful attempt's. -/
theorem cooldown_ranges_characterization (outcomes : Nat → IterOutcome) (rand : Nat → ℚ)
    (user_count : Nat) :
    ∀ rec ∈ (create_accounts outcomes rand user_count).records,
      (∀ b, rec.outcome = .completed b → rec.cooldown_range = some (5, 15) ∧
        rec.cooldown = some (uniform 5 15 (rand rec.idx))) ∧
      (rec.outcome = .exn → rec.cooldown_range = some (10, 30) ∧
        rec.cooldown = some (uniform 10 30 (rand rec.idx))) ∧
      (0 ≤ rand rec.idx → rand rec.idx ≤ 1 →
        ∀ lo hi, rec.cooldown_range = some (lo, hi) →
          ∃ d, rec.cooldown = some d ∧ lo ≤ d ∧ d ≤ hi) := by
  intro rec hm
  have h := create_accounts_loop_rec_facts outcomes rand user_count 0 0 0 rec hm
  refine ⟨fun b hb => ⟨(h.2.2.1 b hb).2.1, (h.2.2.1 b hb).2.2⟩,
    fun he => ⟨(h.2.1 he).2.1, (h.2.1 he).2.2⟩, fun hr0 hr1 lo hi hrange => ?_⟩
  cases ho : rec.outcome with
  | noData =>
    rw [(h.2.2.2 ho).2.1] at hrange
    cases hrange
  | completed b =>
    rw [(h.2.2.1 b ho).2.1] at hrange
    obtain ⟨rfl, rfl⟩ : lo = 5 ∧ hi = 15 := by
      injection hrange with hph
      exact ⟨congrArg Prod.fst hph.symm, congrArg Prod.snd hph.symm⟩
    exact ⟨uniform 5 15 (rand rec.idx), (h.2.2.1 b ho).2.2,
      (uniform_mem 5 15 (rand rec.idx) hr0 hr1 (by norm_num)).1,
      (uniform_mem 5 15 (rand rec.idx) hr0 hr1 (by norm_num)).2⟩
  | exn =>
    rw [(h.2.1 ho).2.1] at hrange
    obtain ⟨rfl, rfl⟩ : lo = 10 ∧ hi = 30 := by
      injection hrange with hph
      exact ⟨congrArg Prod.fst hph.symm, congrArg Prod.snd hph.symm⟩
    exact ⟨uniform 10 30 (rand rec.idx), (h.2.1 ho).2.2,
      (uniform_mem 10 30 (rand rec.idx) hr0 hr1 (by norm_num)).1,
      (uniform_mem 10 30 (rand rec.idx) hr0 hr1 (by norm_num)).2⟩

theorem cooldown_ranges_characterization_witness :
    (⟨0, .completed false, true, some (5, 15), some (uniform 5 15 0)⟩ : IterRecord).cooldown_range
      = some (5, 15) ∧
    ∃ d, (⟨0, .completed false, true, some (5, 15), some (uniform 5 15 0)⟩ :
      IterRecord).cooldown = some d ∧ (5 : ℚ) ≤ d ∧ d ≤ 15 := by
  have hm : (⟨0, .completed false, true, some (5, 15), some (uniform 5 15 0)⟩ : IterRecord) ∈
      (create_accounts (fun _ => IterOutcome.completed false) (fun _ => 0) 1).records := by
    simp [create_accounts, create_accounts_loop]
  have h := cooldown_ranges_characterization (fun _ => IterOutcome.completed false)
    (fun _ => 0) 1 _ hm
  exact ⟨(h.1 false rfl).1, h.2.2 (by norm_num) (by norm_num) 5 15 (h.1 false rfl).1⟩

theorem gpn_fail_state_aux (responses : Nat → Option String) (st : PVState) :
    ∀ remaining callIdx sleeps,
      (get_phone_number_loop responses st callIdx sleeps remaining).ok = false →
      (get_phone_number_loop responses st callIdx sleeps remaining).state = st := by
  intro remaining
  induction remaining with
  | zero => intro c s _; rfl
  | succ r ih =>
    intro c s hok
    rcases hr : responses c with _ | d
    · simp only [get_phone_number_loop, hr] at hok ⊢
      exact ih _ _ hok
    · simp only [get_phone_number_loop, hr] at hok ⊢
      by_cases h1 : pyContains "ACCESS_NUMBER" d
      · simp only [h1, if_true] at hok ⊢
        rcases hsp : pySplit d with _ | ⟨x, _ | ⟨y, _ | ⟨z, rest⟩⟩⟩ <;>
          simp only [hsp] at hok ⊢
        · exact ih _ _ hok
        · exact ih _ _ hok
        · exact ih _ _ hok
        · simp at hok
      · simp only [h1, Bool.false_eq_true, if_false] at hok ⊢
        by_cases h2 : pyContains "NO_NUMBERS" d
        · simp only [h2, if_true] at hok ⊢
          exact ih _ _ hok
        · simp only [h2, Bool.false_eq_true, if_false] at hok ⊢
          by_cases h3 : pyContains "NO_BALANCE" d
          · simp [h3]
          · simp only [h3, Bool.false_eq_true, if_false] at hok ⊢
            by_cases h4 : pyContains "BAD_KEY" d
            · simp [h4]
            · simp only [h4, Bool.false_eq_true, if_false] at hok ⊢
              exact ih _ _ hok

theorem get_phone_number_fail_state (responses : Nat → Option String) (maxAttempts : Nat)
    (st : PVState) (h : (get_phone_number responses maxAttempts st).ok = false) :
    (get_phone_number responses maxAttempts st).state = st :=
  gpn_fail_state_aux responses st maxAttempts 0 [] h

theorem cancel_clears_iff (st : PVState) (resp : Option String) :
    isTruthy (cancel_current_activation st resp).2.current_activation_id = false ↔
      (confirms_cancel resp = true ∨ isTruthy st.current_activation_id = false) := by
  unfold cancel_current_activation
  cases ht : isTruthy st.current_activation_id
  · simp [ht]
  · cases hc : confirms_cancel resp
    · simp [ht, hc]
    · simp [ht, hc, isTruthy]

theorem report_clears_iff (st : PVState) (resp : Option String) :
    isTruthy (report_success st resp).2.current_activation_id = false ↔
      (confirms_success resp = true ∨ isTruthy st.current_activation_id = false) := by
  unfold report_success
  cases ht : isTruthy st.current_activation_id
  · simp [ht]
  · cases hc : confirms_success resp
    · simp [ht, hc]
    · simp [ht, hc, isTruthy]

/-- Claim C1 amended: each attempt reaches exactly one Boolean outcome
whenever its phone-verification flow terminates — exceptions inside the
attempt are caught at the attempt boundary and mapped to failure — but the
phone lease is not always resolved: when `get_phone_number` failed, the
manager state is exactly as before the attempt; when the attempt's phone flow
raised, the state is whatever `get_phone_number` left (an acquired lease
stays active); on the code-failure path the activation id is inactive
afterwards iff the provider confirmed the cancel (or no lease was active),
and on the success path iff the provider confirmed the success report (or no
lease was active).  An exception after leasing, an unconfirmed cancel, or an
unconfirmed success report therefore leaves the activation id active into
the next attempt. -/
theorem handle_phone_verification_lease_characterization :
    (∀ (o : HPVOracle) (st : PVState) (fuel : Nat) (res : HPVResult) (st1 : PVState),
      handle_phone_verification o st fuel = some (res, st1) →
      ((get_phone_number o.number_responses o.number_max st).ok = false →
        res = .ret false "" ∧ st1 = st) ∧
      (res = .exn → st1 = (get_phone_number o.number_responses o.number_max st).state) ∧
      ((get_phone_number o.number_responses o.number_max st).ok = true →
        ∀ ph, res = .ret false ph →
        (isTruthy st1.current_activation_id = false ↔
          (confirms_cancel o.cancel_resp = true ∨
            isTruthy (get_phone_number o.number_responses o.number_max
              st).state.current_activation_id = false))) ∧
      (∀ ph, res = .ret true ph →
        (isTruthy st1.current_activation_id = false ↔
          (confirms_success o.report_resp = true ∨
            isTruthy (get_phone_number o.number_responses o.number_max
              st).state.current_activation_id = false)))) ∧
    (∀ (o : AttemptOracle) (st : PVState) (fuel : Nat),
      (o.pre_steps_ok = false ∨ (requires_phone_verification o.page).1 = false ∨
        (handle_phone_verification o.hpv st fuel).isSome = true) →
      ∃ b st1, create_single_account o st fuel = some (b, st1)) := by
  constructor
  · intro o st fuel res st1 h
    simp only [handle_phone_verification] at h
    cases hok : (get_phone_number o.number_responses o.number_max st).ok with
    | false =>
      simp only [hok, if_true, reduceIte] at h
      simp only [Option.some.injEq, Prod.mk.injEq] at h
      obtain ⟨hres, hst⟩ := h
      subst hres
      subst hst
      refine ⟨fun _ => ⟨rfl, get_phone_number_fail_state _ _ _ hok⟩, ?_, ?_, ?_⟩
      · intro hx; cases hx
      · intro htrue; cases htrue
      · intro ph hx; cases hx
    | true =>
      simp only [hok, Bool.true_eq_false, if_false, reduceIte] at h
      cases hpf : o.page.phone_field_ok with
      | false =>
        simp only [hpf, reduceIte] at h
        simp only [Option.some.injEq, Prod.mk.injEq] at h
        obtain ⟨hres, hst⟩ := h
        subst hres
        subst hst
        refine ⟨fun hf => ?_, fun _ => rfl, ?_, ?_⟩
        · cases hf
        · intro _ ph hx; cases hx
        · intro ph hx; cases hx
      | true =>
        simp only [hpf, Bool.true_eq_false, reduceIte] at h
        cases hn1 : o.page.next_after_phone_ok with
        | false =>
          simp only [hn1, reduceIte] at h
          simp only [Option.some.injEq, Prod.mk.injEq] at h
          obtain ⟨hres, hst⟩ := h
          subst hres
          subst hst
          refine ⟨fun hf => ?_, fun _ => rfl, ?_, ?_⟩
          · cases hf
          · intro _ ph hx; cases hx
          · intro ph hx; cases hx
        | true =>
          simp only [hn1, Bool.true_eq_false, reduceIte] at h
          rcases hgvc : get_verification_code
              (get_phone_number o.number_responses o.number_max st).state
              o.status_responses o.status_max fuel with _ | ⟨gr, n⟩
          · rw [hgvc] at h; cases h
          · rw [hgvc] at h
            cases gr with
            | crash =>
              simp only [Option.some.injEq, Prod.mk.injEq] at h
              obtain ⟨hres, hst⟩ := h
              subst hres
              subst hst
              refine ⟨fun hf => ?_, fun _ => rfl, ?_, ?_⟩
              · cases hf
              · intro _ ph hx; cases hx
              · intro ph hx; cases hx
            | ret rok v =>
              cases rok with
              | false =>
                simp only [Option.some.injEq, Prod.mk.injEq] at h
                obtain ⟨hres, hst⟩ := h
                subst hres
                subst hst
                refine ⟨fun hf => ?_, fun hx => ?_, ?_, ?_⟩
                · cases hf
                · cases hx
                · intro _ ph _
                  exact cancel_clears_iff _ o.cancel_resp
                · intro ph hx; cases hx
              | true =>
                cases hcf : o.page.code_field_ok with
                | false =>
                  simp only [hcf, reduceIte] at h
                  simp only [Option.some.injEq, Prod.mk.injEq] at h
                  obtain ⟨hres, hst⟩ := h
                  subst hres
                  subst hst
                  refine ⟨fun hf => ?_, fun _ => rfl, ?_, ?_⟩
                  · cases hf
                  · intro _ ph hx; cases hx
                  · intro ph hx; cases hx
                | true =>
                  simp only [hcf, Bool.true_eq_false, reduceIte] at h
                  cases hn2 : o.page.next_after_code_ok with
                  | false =>
                    simp only [hn2, reduceIte] at h
                    simp only [Option.some.injEq, Prod.mk.injEq] at h
                    obtain ⟨hres, hst⟩ := h
                    subst hres
                    subst hst
                    refine ⟨fun hf => ?_, fun _ => rfl, ?_, ?_⟩
                    · cases hf
                    · intro _ ph hx; cases hx
                    · intro ph hx; cases hx
                  | true =>
                    simp only [hn2, Bool.true_eq_false, reduceIte] at h
                    simp only [Option.some.injEq, Prod.mk.injEq] at h
                    obtain ⟨hres, hst⟩ := h
                    subst hres
                    subst hst
                    refine ⟨fun hf => ?_, fun hx => ?_, ?_, ?_⟩
                    · cases hf
                    · cases hx
                    · intro _ ph hx; cases hx
                    · intro ph _
                      exact report_clears_iff _ o.report_resp
  · intro o st fuel hdis
    by_cases hpre : o.pre_steps_ok = false
    · exact ⟨false, st, by simp [create_single_account, hpre]⟩
    · by_cases hreq : (requires_phone_verification o.page).1 = true
      · have hsome : (handle_phone_verification o.hpv st fuel).isSome = true := by
          rcases hdis with hd | hd | hd
          · exact absurd hd hpre
          · rw [hd] at hreq; cases hreq
          · exact hd
        rcases hh : handle_phone_verification o.hpv st fuel with _ | ⟨gr, st1⟩
        · rw [hh] at hsome; cases hsome
        · cases gr with
          | exn => exact ⟨false, st1, by simp [create_single_account, hpre, hreq, hh]⟩
          | ret rok ph =>
            cases rok with
            | false => exact ⟨false, st1, by simp [create_single_account, hpre, hreq, hh]⟩
            | true =>
              by_cases hfin : o.final_steps_ok = false
              · exact ⟨false, st1, by simp [create_single_account, hpre, hreq, hh, hfin]⟩
              · by_cases hsave : o.save_ok = false
                · exact ⟨false, st1,
                    by simp [create_single_account, hpre, hreq, hh, hfin, hsave]⟩
                · exact ⟨true, st1,
                    by simp [create_single_account, hpre, hreq, hh, hfin, hsave]⟩
      · by_cases hfin : o.final_steps_ok = false
        · exact ⟨false, st, by simp [create_single_account, hpre, hreq, hfin]⟩
        · by_cases hsave : o.save_ok = false
          · exact ⟨false, st, by simp [create_single_account, hpre, hreq, hfin, hsave]⟩
          · exact ⟨true, st, by simp [create_single_account, hpre, hreq, hfin, hsave]⟩

/-- An attempt in which phone verification is required and everything
succeeds — lease `ACCESS_NUMBER:42:611234567`, code `STATUS_OK:123456`, all
page interactions fine — except that the provider's reply to the final
success report is not `ACCESS_ACTIVATION_SUCCESS`, so `report_success`
returns `False` without clearing the activation id. -/
def report_failure_attempt : AttemptOracle where
  pre_steps_ok := true
  page := ⟨false, true⟩
  hpv :=
    { number_responses := fun _ => some "ACCESS_NUMBER:42:611234567"
      number_max := 10
      status_responses := fun _ => some "STATUS_OK:123456"
      status_max := 10
      page := ⟨true, true, true, true⟩
      cancel_resp := none
      report_resp := some "ERROR_SQL" }
  final_steps_ok := true
  save_ok := true

/-- Claim C1 counterexample: the attempt terminates with the single outcome
"success", yet the `PhoneVerificationManager` still holds the active
activation id `42` when the attempt ends — the failed success report is an
exit path that leaves the lease unresolved, refuting the claim that no exit
path (including a failed success-report) leaves a still-active activation
id. -/
theorem success_report_failure_leaks_activation :
    create_single_account report_failure_attempt ⟨none, none⟩ 20 =
      some (true, ⟨some "42", some "611234567"⟩) ∧
    isTruthy (PVState.mk (some "42") (some "611234567")).current_activation_id = true :=
  ⟨by decide, by decide⟩

theorem handle_phone_verification_lease_characterization_witness :
    (create_single_account report_failure_attempt ⟨none, none⟩ 20).isSome = true ∧
    (isTruthy (PVState.mk (some "42") (some "611234567")).current_activation_id = false ↔
      (confirms_success (some "ERROR_SQL") = true ∨
        isTruthy (get_phone_number report_failure_attempt.hpv.number_responses
          report_failure_attempt.hpv.number_max
          ⟨none, none⟩).state.current_activation_id = false)) := by
  constructor
  · obtain ⟨b, st1, hb⟩ := handle_phone_verification_lease_characterization.2
      report_failure_attempt ⟨none, none⟩ 20 (Or.inr (Or.inr (by decide)))
    rw [hb]
    rfl
  · have h := (handle_phone_verification_lease_characterization.1
      report_failure_attempt.hpv ⟨none, none⟩ 20 (.ret true "+611234567")
      ⟨some "42", some "611234567"⟩ (by decide)).2.2.2 "+611234567" rfl
    exact h
